import Mathlib

/-
Verification of the Interview Session Lifecycle Manager
(FastAPI backend, no_websocket.py).

The embedding below translates the session-lifecycle core of the source
into executable Lean definitions:

* timestamps are rational numbers of seconds (`ℚ`); the source's
  `(datetime.now() - timer_started).total_seconds() / 60` becomes
  `(now - start) / 60`;
* Python dictionaries (`active_sessions`, `l1_link_locks`,
  `persistent_sessions`, the `data/l1_interview_*.json` artifact files and
  the `link_security/*.json` lock files) become association lists with
  insertion-order preserving update, as in a Python dict;
* Python's `round(x, n)` (banker's rounding) becomes `python_round_dp`,
  built on round-half-to-even over `ℚ`;
* external collaborators that are out of scope for the lifecycle claims
  (`analyze_response_llm`, `choose_next_question`, the generic question
  pool of `load_existing_questions`, the date-token validator of
  `interview_security`, and the link metadata of `L1InterviewGenerator`)
  are passed in as oracle parameters, exactly where the source calls them;
* the durable JSON write of `save_persistent_sessions` is modelled by a
  `writeOk` flag: the source wraps the write in `try/except` and only
  prints on failure, which the model renders as leaving the durable copy
  unchanged while returning normally.

Side effects with no bearing on the lifecycle claims (result-file dumps
under `results/`, eye-tracking logs, attention analysis, database export)
are not modelled; they touch no session, lock, timer or identity state.
-/

/-- Association-list lookup, the model of Python `d[k]` / `k in d`. -/
def mapGet {α : Type} : List (String × α) → String → Option α
  | [], _ => none
  | p :: rest, k => if p.1 = k then some p.2 else mapGet rest k

/-- Association-list update, the model of Python `d[k] = v`: an existing
key is overwritten in place (a Python dict keeps the key's position),
a new key is appended. -/
def mapSet {α : Type} : List (String × α) → String → α → List (String × α)
  | [], k, v => [(k, v)]
  | p :: rest, k, v => if p.1 = k then (k, v) :: rest else p :: mapSet rest k v

/-- Association-list removal, the model of Python `d.pop(k, None)` /
guarded `del d[k]`: removing an absent key is a no-op. -/
def mapDel {α : Type} : List (String × α) → String → List (String × α)
  | [], _ => []
  | p :: rest, k => if p.1 = k then mapDel rest k else p :: mapDel rest k

/-- Removal of a name from a file listing, the model of a guarded
`os.remove`: removing an absent file is a no-op. -/
def remove_name : List String → String → List String
  | [], _ => []
  | n :: rest, k => if n = k then remove_name rest k else n :: remove_name rest k

/-- Round-half-to-even on `ℚ`, the rounding mode of Python `round`. -/
def round_half_even (q : ℚ) : ℤ :=
  if q - (⌊q⌋ : ℚ) < 1 / 2 then ⌊q⌋
  else if 1 / 2 < q - (⌊q⌋ : ℚ) then ⌊q⌋ + 1
  else if 2 ∣ ⌊q⌋ then ⌊q⌋ else ⌊q⌋ + 1

/-- Python `round(q, dp)` over exact rationals. -/
def python_round_dp (dp : ℕ) (q : ℚ) : ℚ :=
  (round_half_even (q * (10 : ℚ) ^ dp) : ℚ) / (10 : ℚ) ^ dp

/-- Source constant `INTERVIEW_TIME_LIMIT_MINUTES = 30`. -/
def INTERVIEW_TIME_LIMIT_MINUTES : ℚ := 30

/-- Source constant `SESSION_EXPIRY_HOURS = 24`. -/
def SESSION_EXPIRY_HOURS : ℚ := 24

/-- Source constant `config.NUM_QUESTIONS`; the source always passes 5
(`total_questions = config.NUM_QUESTIONS  # Always use ... (5)`). -/
def NUM_QUESTIONS : ℕ := 5

/-- An entry of a session's `question_pool`: the source marks a question
used by writing its `ans`, `score` and `feedback` keys. -/
structure Question where
  question : String
  ans : String := ""
  score : Option ℤ := none
  feedback : String := ""
  passing_threshold : ℤ := 50
  deriving Repr, DecidableEq

/-- One element of a session's `results` list, as appended by
`process_answer`. -/
structure InterviewResult where
  question_id : ℕ
  question : String
  answer : String
  difficulty : String
  score : ℤ
  feedback : String
  passing_threshold : ℤ
  timestamp : ℚ
  deriving Repr, DecidableEq

/-- The mutable per-session record stored in `active_sessions`
(`session_data` of `start_interview`).  `interview_timer_started` is an
`Option` because the timer functions guard on its absence
(`session.get("interview_timer_started")`). -/
structure SessionRecord where
  session_id : String
  created_at : ℚ
  browser_fingerprint : String
  candidate_name : String
  candidate_email : String
  position : String
  current_question_num : ℕ
  total_questions : ℕ
  question_pool : List Question
  current_difficulty : String
  is_l1_interview : Bool
  l1_session_id : Option String
  results : List InterviewResult
  start_time : ℚ
  interview_timer_started : Option ℚ
  time_limit_minutes : ℚ
  status : String
  current_question : Option Question := none
  end_time : Option ℚ := none
  end_reason : Option String := none
  final_results : Option (List InterviewResult) := none
  deriving Repr, DecidableEq

/-- Contents of a `data/l1_interview_{id}.json` artifact, as far as
`start_interview` reads it (`questions`, `job_role`). -/
structure L1Data where
  questions : List Question
  job_role : String
  deriving Repr, DecidableEq

/-- The process-wide state: the session store `active_sessions`, the link
lock registry `l1_link_locks`, the in-memory `persistent_sessions` dict,
the durable copy of it (`persistent_sessions.json`), the L1 question
artifacts (`data/l1_interview_*.json`, keyed by L1 session id) and the
lock files (`link_security/l1_lock_*.json`, listed by L1 session id). -/
structure ServerState where
  active_sessions : List (String × SessionRecord)
  l1_link_locks : List (String × String)
  persistent_mem : List (String × String)
  persistent_durable : List (String × String)
  l1_files : List (String × L1Data)
  security_files : List String
  deriving Repr, DecidableEq

/-- Typed request failures raised via `HTTPException` in the source. -/
inductive ApiError
  | sessionNotFound
  | metadataNotFound
  | browserMismatch
  | sessionExpired
  | sessionCompleted
  | noActiveQuestion
  | l1FileNotFound
  | emptyQuestionPool
  deriving Repr, DecidableEq

/-- The HTTP status code each failure is raised with in the source. -/
def ApiError.httpStatus : ApiError → ℕ
  | .sessionNotFound => 404
  | .metadataNotFound => 404
  | .browserMismatch => 403
  | .sessionExpired => 410
  | .sessionCompleted => 400
  | .noActiveQuestion => 400
  | .l1FileNotFound => 404
  | .emptyQuestionPool => 500

/-- Source `check_interview_timer`: `False` when no timer is set,
otherwise expired exactly when `elapsed_minutes >= time_limit` with
`elapsed_minutes = (now - timer_started).total_seconds() / 60` and
`time_limit = session.get("time_limit_minutes", 30)`. -/
def check_interview_timer (now : ℚ) (s : SessionRecord) : Bool :=
  match s.interview_timer_started with
  | none => false
  | some timer_started =>
      decide (s.time_limit_minutes ≤ (now - timer_started) / 60)

/-- Source `get_remaining_time_minutes`: the full 30-minute constant when
no timer is set, otherwise `round(max(0, time_limit - elapsed), 2)`. -/
def get_remaining_time_minutes (now : ℚ) (s : SessionRecord) : ℚ :=
  match s.interview_timer_started with
  | none => INTERVIEW_TIME_LIMIT_MINUTES
  | some timer_started =>
      let elapsed_minutes := (now - timer_started) / 60
      python_round_dp 2 (max 0 (s.time_limit_minutes - elapsed_minutes))

/-- Source `create_user_identifier`: `L1_{l1}_{email}` for link-scoped
interviews (fingerprint deliberately excluded), `REG_{email}_{fp}` for
ad-hoc ones. -/
def create_user_identifier (email fp : String) (l1_session_id : Option String) : String :=
  match l1_session_id with
  | some l1 => "L1_" ++ l1 ++ "_" ++ email
  | none => "REG_" ++ email ++ "_" ++ fp

/-- Source `save_persistent_sessions`: the durable JSON write.  On
success the file mirrors the in-memory dict; on failure the exception is
caught and only printed, so the call returns normally with the durable
copy unchanged. -/
def save_persistent_sessions (writeOk : Bool) (st : ServerState) : ServerState :=
  if writeOk then { st with persistent_durable := st.persistent_mem } else st

/-- Source `get_or_create_persistent_session_id`: return the mapped id if
the identifier is known; otherwise record a fresh id (the `uuid4` value,
passed in as `fresh_id`), attempt the durable save, and return it.  Note
that a failed save is not surfaced. -/
def get_or_create_persistent_session_id (writeOk : Bool) (st : ServerState)
    (user_identifier fresh_id : String) : ServerState × String :=
  match mapGet st.persistent_mem user_identifier with
  | some sid => (st, sid)
  | none =>
      let st1 := { st with persistent_mem := mapSet st.persistent_mem user_identifier fresh_id }
      (save_persistent_sessions writeOk st1, fresh_id)

/-- The resumption test of `start_interview`, per stored session: for an
L1 request, same `l1_session_id`, status `active`, same fingerprint and
`current_question_num > 1` (at least one answer submitted); for a regular
request, same email instead of the link id, and not an L1 session. -/
def resume_match (l1_session_id : Option String) (email fp : String)
    (e : String × SessionRecord) : Bool :=
  match l1_session_id with
  | some l1 =>
      decide (e.2.l1_session_id = some l1) && decide (e.2.status = "active") &&
      decide (e.2.browser_fingerprint = fp) && decide (1 < e.2.current_question_num)
  | none =>
      decide (e.2.candidate_email = email) && decide (e.2.status = "active") &&
      decide (e.2.browser_fingerprint = fp) && decide (1 < e.2.current_question_num) &&
      !e.2.is_l1_interview

/-- The L1 lock test of `start_interview` (fresh path): reject only when
a lock entry exists for the link and is bound to another fingerprint. -/
def l1_lock_conflict (st : ServerState) (l1_session_id : Option String) (fp : String) : Bool :=
  match l1_session_id with
  | none => false
  | some l1 =>
      match mapGet st.l1_link_locks l1 with
      | none => false
      | some locked_fp => decide (locked_fp ≠ fp)

/-- Question-pool loading of the fresh-start path: L1 interviews read the
`data/l1_interview_{id}.json` artifact (404 when absent); regular
interviews use the generic pool of `load_existing_questions` (500 when
empty), keeping the requested position. -/
def load_question_pool (genericPool : List Question) (st : ServerState)
    (position : String) (l1_session_id : Option String) :
    Except ApiError (List Question × String) :=
  match l1_session_id with
  | some l1 =>
      match mapGet st.l1_files l1 with
      | none => .error .l1FileNotFound
      | some d => .ok (d.questions, d.job_role)
  | none =>
      if genericPool.isEmpty then .error .emptyQuestionPool
      else .ok (genericPool, position)

/-- The `session_data` dict built by the fresh path of `start_interview`:
timer and creation stamped `now`, status `active`, no progress. -/
def fresh_session_record (session_id name email fp position : String)
    (pool : List Question) (l1_session_id : Option String) (now : ℚ) : SessionRecord :=
  { session_id := session_id
    created_at := now
    browser_fingerprint := fp
    candidate_name := name
    candidate_email := email
    position := position
    current_question_num := 0
    total_questions := NUM_QUESTIONS
    question_pool := pool
    current_difficulty := "easy"
    is_l1_interview := l1_session_id.isSome
    l1_session_id := l1_session_id
    results := []
    start_time := now
    interview_timer_started := some now
    time_limit_minutes := INTERVIEW_TIME_LIMIT_MINUTES
    status := "active" }

/-- Response of `POST /api/interview/start`.  The fresh path fills
`first_question` and hardcodes `remaining_time_minutes = 30`; the resumed
path fills `current_question` / `current_question_num` and computes the
remaining time from the existing record. -/
structure StartResponse where
  session_id : String
  status : String
  first_question : Option String := none
  current_question : Option String := none
  current_question_num : Option ℕ := none
  remaining_time_minutes : ℚ
  interview_timer_started : Option ℚ := none
  deriving Repr, DecidableEq

/-- The resumed-session response of `start_interview` (state untouched). -/
def resume_response (e : String × SessionRecord) (now : ℚ) : StartResponse :=
  { session_id := e.1
    status := "resumed"
    current_question := e.2.current_question.map (fun q => q.question)
    current_question_num := some e.2.current_question_num
    remaining_time_minutes := get_remaining_time_minutes now e.2
    interview_timer_started := e.2.interview_timer_started }

/-- The fresh-start tail of `start_interview` (everything after the
resumption scan failed): L1 lock check, pool loading, record creation and
insertion, first question via `choose_next_question`. -/
def start_fresh (choose : List Question → String → Option Question)
    (genericPool : List Question) (st : ServerState)
    (name email position : String) (l1_session_id : Option String)
    (fp session_id : String) (now : ℚ) : ServerState × Except ApiError StartResponse :=
  if l1_lock_conflict st l1_session_id fp then (st, .error .browserMismatch)
  else
    match load_question_pool genericPool st position l1_session_id with
    | .error e => (st, .error e)
    | .ok (pool, pos) =>
        let base := fresh_session_record session_id name email fp pos pool l1_session_id now
        let rec1 :=
          match choose pool "easy" with
          | some q => { base with current_question := some q, current_question_num := 1 }
          | none => base
        ({ st with active_sessions := mapSet st.active_sessions session_id rec1 },
         .ok { session_id := session_id
               status := "started"
               first_question := (choose pool "easy").map (fun q => q.question)
               remaining_time_minutes := INTERVIEW_TIME_LIMIT_MINUTES
               interview_timer_started := some now })

/-- Source `start_interview` (`POST /api/interview/start`): derive the
user identifier, resolve the persistent session id, scan the store for a
legitimate resumption, and otherwise start fresh. -/
def start_interview (choose : List Question → String → Option Question)
    (genericPool : List Question) (writeOk : Bool) (st : ServerState)
    (name email position : String) (l1_session_id : Option String)
    (fp fresh_id : String) (now : ℚ) : ServerState × Except ApiError StartResponse :=
  let uid := create_user_identifier email fp l1_session_id
  let r := get_or_create_persistent_session_id writeOk st uid fresh_id
  match r.1.active_sessions.find? (resume_match l1_session_id email fp) with
  | some e => (r.1, .ok (resume_response e now))
  | none => start_fresh choose genericPool r.1 name email position l1_session_id fp r.2 now

/-- The per-request browser verification shared by answer, status and end
handlers: skipped when the transport passed no request object (`if
request:`), otherwise compare against the record's stored fingerprint. -/
def fingerprint_mismatch (fp : Option String) (s : SessionRecord) : Bool :=
  match fp with
  | none => false
  | some f => decide (s.browser_fingerprint ≠ f)

/-- Source `utils.update_difficulty` over the ladder
`easy, medium, hard`.  `levels.index(current)` would raise on an unknown
level; records created by this API always carry one of the three, and the
model keeps the current value in that unreachable case. -/
def level_index (current : String) : ℕ :=
  if current = "easy" then 0 else if current = "medium" then 1 else 2

/-- Difficulty update after an answer: jump easy to hard at 25+ points
above threshold, step up at 10+, step down when 5+ below, else keep. -/
def update_difficulty (current : String) (score passing_threshold : ℤ) : String :=
  let levels : List String := ["easy", "medium", "hard"]
  let idx := level_index current
  if passing_threshold + 25 ≤ score ∧ idx = 0 then "hard"
  else if passing_threshold + 10 ≤ score ∧ idx < 2 then levels.getD (idx + 1) current
  else if score < passing_threshold - 5 ∧ 0 < idx then levels.getD (idx - 1) current
  else current

/-- The mark-question-as-used loop of `process_answer`: the first pool
entry with matching text gets the answer, score and feedback written. -/
def mark_question_used : List Question → String → String → ℤ → String → List Question
  | [], _, _, _, _ => []
  | q :: rest, qtext, ans, score, fb =>
      if q.question = qtext then
        { q with ans := ans, score := some score, feedback := fb } :: rest
      else q :: mark_question_used rest qtext ans score fb

/-- The corrupted-question safety check of `process_answer`: empty text,
a `**` marker, or fewer than 10 characters after stripping. -/
def is_corrupt_question (q : String) : Bool :=
  decide (q = "") || decide (1 < (q.splitOn "**").length) || decide (q.trim.length < 10)

/-- The fallback-question filter of `process_answer`: unused (`ans` still
empty), nonempty, no `**` marker, at least 10 stripped characters. -/
def usable_fallback_question (q : Question) : Bool :=
  decide (q.ans = "") && decide (q.question ≠ "") &&
  !(decide (1 < (q.question.splitOn "**").length)) && decide (10 ≤ q.question.trim.length)

/-- The guarded L1 resource cleanup repeated at natural completion, at
`end_interview` and in the timeout sweep: delete the question artifact if
it exists, release the link lock if present, delete the lock file if it
exists.  A no-op for non-L1 sessions. -/
def release_l1_artifacts (st : ServerState) (s : SessionRecord) : ServerState :=
  if s.is_l1_interview then
    match s.l1_session_id with
    | some l1 =>
        { st with l1_files := mapDel st.l1_files l1
                  l1_link_locks := mapDel st.l1_link_locks l1
                  security_files := remove_name st.security_files l1 }
    | none => st
  else st

/-- The L1 cleanup of the 24-hour sweep (`cleanup_expired_sessions`):
artifact and lock only — that sweep does not delete the lock file. -/
def release_l1_artifacts_24h (st : ServerState) (s : SessionRecord) : ServerState :=
  if s.is_l1_interview then
    match s.l1_session_id with
    | some l1 =>
        { st with l1_files := mapDel st.l1_files l1
                  l1_link_locks := mapDel st.l1_link_locks l1 }
    | none => st
  else st

/-- Resource teardown as performed by `end_interview` on a stored session:
pop the store entry (absence tolerated) and run the guarded L1 cleanup
with the popped record. -/
def session_teardown (st : ServerState) (session_id : String) : ServerState :=
  match mapGet st.active_sessions session_id with
  | none => st
  | some s =>
      release_l1_artifacts { st with active_sessions := mapDel st.active_sessions session_id } s

/-- Resource teardown as performed, per expired id, by the hourly branch
of `cleanup_expired_sessions`. -/
def session_teardown_24h (st : ServerState) (session_id : String) : ServerState :=
  match mapGet st.active_sessions session_id with
  | none => st
  | some s =>
      release_l1_artifacts_24h { st with active_sessions := mapDel st.active_sessions session_id } s

/-- The average score over a results list, as computed in the completion
branch of `process_answer` (`sum(...) / len(...)`). -/
def average_score (rs : List InterviewResult) : ℚ :=
  if rs.length = 0 then 0 else ((rs.map (fun r => r.score)).sum : ℚ) / rs.length

/-- Response of `POST /api/interview/answer`. -/
structure AnswerResponse where
  session_id : String
  status : String
  score : ℚ
  next_question : Option String
  question_number : ℕ
  total_questions : ℕ
  deriving Repr, DecidableEq

/-- Source `process_answer` (`POST /api/interview/answer`): session
lookup, browser verification, timer check (marking the record completed
and raising 410 when expired), completed-state guard, answer evaluation
through the LLM oracle, result append, pool bookkeeping, difficulty
update, then either completion (with guarded L1 cleanup) or next-question
selection with the corruption check and the fallback scan. -/
def process_answer (evalAnswer : String → String → String → ℤ × String)
    (choose : List Question → String → Option Question)
    (st : ServerState) (session_id answer_text : String)
    (fp : Option String) (now : ℚ) : ServerState × Except ApiError AnswerResponse :=
  match mapGet st.active_sessions session_id with
  | none => (st, .error .sessionNotFound)
  | some s =>
    if fingerprint_mismatch fp s then (st, .error .browserMismatch)
    else if check_interview_timer now s then
      let s1 := { s with status := "completed", end_time := some now,
                         end_reason := some "time_expired" }
      ({ st with active_sessions := mapSet st.active_sessions session_id s1 },
       .error .sessionExpired)
    else if s.status = "completed" then (st, .error .sessionCompleted)
    else
      match s.current_question with
      | none => (st, .error .noActiveQuestion)
      | some cq =>
        let ev := evalAnswer answer_text cq.question s.current_difficulty
        let result : InterviewResult :=
          { question_id := s.current_question_num
            question := cq.question
            answer := answer_text
            difficulty := s.current_difficulty
            score := ev.1
            feedback := ev.2
            passing_threshold := cq.passing_threshold
            timestamp := now }
        let results1 := s.results ++ [result]
        let pool1 := mark_question_used s.question_pool cq.question answer_text ev.1 ev.2
        let diff1 := update_difficulty s.current_difficulty ev.1 cq.passing_threshold
        let s1 := { s with results := results1, question_pool := pool1,
                           current_difficulty := diff1 }
        if s1.total_questions ≤ results1.length then
          let s2 := { s1 with status := "completed", end_time := some now,
                              final_results := some results1 }
          let st1 := { st with active_sessions := mapSet st.active_sessions session_id s2 }
          (release_l1_artifacts st1 s2,
           .ok { session_id := session_id
                 status := "interview_complete"
                 score := average_score results1
                 next_question := none
                 question_number := s1.current_question_num
                 total_questions := s1.total_questions })
        else
          let chosen :=
            match choose pool1 diff1 with
            | some q => if is_corrupt_question q.question then none else some q
            | none => none
          let chosen1 :=
            match chosen with
            | some q => some q
            | none => pool1.find? usable_fallback_question
          match chosen1 with
          | some nq =>
            let s2 := { s1 with current_question := some nq,
                                current_question_num := s1.current_question_num + 1 }
            ({ st with active_sessions := mapSet st.active_sessions session_id s2 },
             .ok { session_id := session_id
                   status := "question_processed"
                   score := (ev.1 : ℚ)
                   next_question := some nq.question
                   question_number := s2.current_question_num
                   total_questions := s2.total_questions })
          | none =>
            let s2 := { s1 with status := "completed" }
            let st1 := { st with active_sessions := mapSet st.active_sessions session_id s2 }
            (release_l1_artifacts st1 s2,
             .ok { session_id := session_id
                   status := "interview_complete"
                   score := (ev.1 : ℚ)
                   next_question := none
                   question_number := s1.current_question_num
                   total_questions := s1.total_questions })

/-- Response of `GET /api/interview/{session_id}/status`. -/
structure StatusResponse where
  session_id : String
  status : String
  current_question_num : ℕ
  total_questions : ℕ
  results_count : ℕ
  final_score : ℚ
  remaining_time_minutes : ℚ
  time_limit_minutes : ℚ
  interview_timer_started : Option ℚ
  deriving Repr, DecidableEq

/-- Source `get_interview_status`: lookup, browser verification, timer
check (marking the record completed and raising 410 when expired), then
the status snapshot with the remaining time and the running average
score rounded to one decimal. -/
def get_interview_status (st : ServerState) (session_id : String)
    (fp : Option String) (now : ℚ) : ServerState × Except ApiError StatusResponse :=
  match mapGet st.active_sessions session_id with
  | none => (st, .error .sessionNotFound)
  | some s =>
    if fingerprint_mismatch fp s then (st, .error .browserMismatch)
    else if check_interview_timer now s then
      let s1 := { s with status := "completed", end_time := some now,
                         end_reason := some "time_expired" }
      ({ st with active_sessions := mapSet st.active_sessions session_id s1 },
       .error .sessionExpired)
    else
      (st, .ok { session_id := session_id
                 status := s.status
                 current_question_num := s.current_question_num
                 total_questions := s.total_questions
                 results_count := s.results.length
                 final_score :=
                   if s.results.length = 0 then 0
                   else python_round_dp 1 (average_score s.results)
                 remaining_time_minutes := get_remaining_time_minutes now s
                 time_limit_minutes := s.time_limit_minutes
                 interview_timer_started := s.interview_timer_started })

/-- Response of `POST /api/interview/end`. -/
structure EndResponse where
  session_id : String
  status : String
  questions_answered : ℕ
  deriving Repr, DecidableEq

/-- Source `end_interview` (`POST /api/interview/end`): lookup, browser
verification, mark completed with final results, guarded L1 cleanup, then
pop the store entry.  The frame-processing, attention-analysis and
database steps touch no lifecycle state and are omitted. -/
def end_interview (st : ServerState) (session_id : String)
    (fp : Option String) (now : ℚ) : ServerState × Except ApiError EndResponse :=
  match mapGet st.active_sessions session_id with
  | none => (st, .error .sessionNotFound)
  | some s =>
    if fingerprint_mismatch fp s then (st, .error .browserMismatch)
    else
      let s1 := { s with status := "completed", end_time := some now,
                         final_results := some s.results }
      let st1 := { st with active_sessions := mapSet st.active_sessions session_id s1 }
      let st2 := release_l1_artifacts st1 s1
      ({ st2 with active_sessions := mapDel st2.active_sessions session_id },
       .ok { session_id := session_id
             status := "completed"
             questions_answered := s.results.length })

/-- The per-session body of `auto_end_expired_interviews` (the frequent
sweep), applied to a record that is `active` and timer-expired: mark
completed with reason `time_expired`, snapshot final results, and run the
guarded L1 cleanup.  The store entry itself is retained. -/
def auto_end_session (st : ServerState) (session_id : String) (now : ℚ) : ServerState :=
  match mapGet st.active_sessions session_id with
  | none => st
  | some s =>
    if s.status = "active" && check_interview_timer now s then
      let s1 := { s with status := "completed", end_time := some now,
                         end_reason := some "time_expired",
                         final_results := some s.results }
      release_l1_artifacts
        { st with active_sessions := mapSet st.active_sessions session_id s1 } s1
    else st

/-- Adding a name to a file listing, the model of writing a lock file:
overwriting an existing file leaves the listing unchanged. -/
def add_file (files : List String) (name : String) : List String :=
  if name ∈ files then files else files ++ [name]

/-- Outcome of `GET /api/l1/interview/{session_id}` when no exception is
raised. -/
inductive LinkAccessResult
  | tokenInvalid
  | notYetActive
  | linkExpired
  | granted (locked_to : String)
  deriving Repr, DecidableEq

/-- The artifact-file check at the end of `get_l1_interview_session`: a
missing question artifact removes the (possibly just-created) lock entry
and raises 404 — but leaves the lock file in place. -/
def l1_session_file_check (st : ServerState) (session_id fp : String) :
    ServerState × Except ApiError LinkAccessResult :=
  match mapGet st.l1_files session_id with
  | none =>
      ({ st with l1_link_locks := mapDel st.l1_link_locks session_id },
       .error .l1FileNotFound)
  | some _ => (st, .ok (.granted fp))

/-- Source `get_l1_interview_session` (`GET /api/l1/interview/{id}`):
date-token validation (`token = some v` models a token whose external
validation returned `v`; `none` models an absent token), metadata lookup
with the legacy time window, then the link-lock check — reject a lock
bound to another fingerprint with 403, create the lock and its lock file
on first access — and finally the artifact-file check. -/
def get_l1_interview_session (st : ServerState) (session_id fp : String)
    (token : Option Bool) (metadata : Option (ℚ × ℚ)) (now : ℚ) :
    ServerState × Except ApiError LinkAccessResult :=
  if token = some false then (st, .ok .tokenInvalid)
  else
    match metadata with
    | none => (st, .error .metadataNotFound)
    | some window =>
      if token = none ∧ now < window.1 then (st, .ok .notYetActive)
      else if token = none ∧ window.2 ≤ now then (st, .ok .linkExpired)
      else
        match mapGet st.l1_link_locks session_id with
        | some locked_fp =>
            if locked_fp ≠ fp then (st, .error .browserMismatch)
            else l1_session_file_check st session_id fp
        | none =>
            l1_session_file_check
              { st with l1_link_locks := mapSet st.l1_link_locks session_id fp
                        security_files := add_file st.security_files session_id }
              session_id fp

deriving instance DecidableEq for Except

/-- Status string of a start response, `none` on failure. -/
def start_result_status : Except ApiError StartResponse → Option String
  | .ok r => some r.status
  | .error _ => none

/-- Remaining minutes of a start response, `none` on failure. -/
def start_result_remaining : Except ApiError StartResponse → Option ℚ
  | .ok r => some r.remaining_time_minutes
  | .error _ => none

/-- Remaining minutes of a status response, `none` on failure. -/
def status_result_remaining : Except ApiError StatusResponse → Option ℚ
  | .ok r => some r.remaining_time_minutes
  | .error _ => none

/-- A deterministic stand-in for `choose_next_question` in concrete runs:
the first pool question. -/
def ex_choose : List Question → String → Option Question :=
  fun pool _ => pool.head?

/-- A deterministic stand-in for `analyze_response_llm` in concrete runs. -/
def ex_eval : String → String → String → ℤ × String :=
  fun _ _ _ => (70, "reasonable answer")

/-- A well-formed pool question for concrete runs. -/
def ex_question : Question :=
  { question := "Explain the difference between a list and a tuple in Python." }

/-- A second well-formed pool question for concrete runs. -/
def ex_question2 : Question :=
  { question := "What does an index add to a relational database table?" }

/-- An L1 artifact for concrete runs, stored under link id `L1X`. -/
def ex_l1_data : L1Data :=
  { questions := [ex_question, ex_question2], job_role := "Data Engineer" }

/-- The empty server state. -/
def ex_state_empty : ServerState :=
  { active_sessions := []
    l1_link_locks := []
    persistent_mem := []
    persistent_durable := []
    l1_files := []
    security_files := [] }

/-- Server state holding only the `L1X` question artifact. -/
def ex_state_l1 : ServerState :=
  { ex_state_empty with l1_files := [("L1X", ex_l1_data)] }

/-- A result already recorded in a running session, for partial-results
scenarios. -/
def ex_result : InterviewResult :=
  { question_id := 1
    question := ex_question.question
    answer := "a tuple is immutable"
    difficulty := "easy"
    score := 70
    feedback := "reasonable answer"
    passing_threshold := 50
    timestamp := 10 }

/-- An active session record whose timer started at 0 seconds, owned by
fingerprint `fpOne`, with one answered question. -/
def ex_timer_record : SessionRecord :=
  { session_id := "S"
    created_at := 0
    browser_fingerprint := "fpOne"
    candidate_name := "Ann"
    candidate_email := "a@x.com"
    position := "Software Engineer"
    current_question_num := 2
    total_questions := 5
    question_pool := [ex_question, ex_question2]
    current_difficulty := "easy"
    is_l1_interview := false
    l1_session_id := none
    results := [ex_result]
    start_time := 0
    interview_timer_started := some 0
    time_limit_minutes := 30
    status := "active"
    current_question := some ex_question2 }

/-- Server state holding one active timed session under id `S`. -/
def ex_state_active : ServerState :=
  { ex_state_empty with active_sessions := [("S", ex_timer_record)] }

/-- First start of the C1 scenario: fingerprint `fpOne` starts the L1
interview for link `L1X` before anyone has fetched the link, so no lock
entry exists. -/
def c1_run1 : ServerState × Except ApiError StartResponse :=
  start_interview ex_choose [] true ex_state_l1
    "Ann" "a@x.com" "Software Engineer" (some "L1X") "fpOne" "id1" 0

/-- Second start of the C1 scenario: a different fingerprint `fpTwo`
issues `startSession` against the same link with the same candidate. -/
def c1_run2 : ServerState × Except ApiError StartResponse :=
  start_interview ex_choose [] true c1_run1.1
    "Ann" "a@x.com" "Software Engineer" (some "L1X") "fpTwo" "id2" 0

/-- First start of the C2 scenario: a regular interview at time 0. -/
def c2_run1 : ServerState × Except ApiError StartResponse :=
  start_interview ex_choose [ex_question, ex_question2] true ex_state_empty
    "Ann" "a@x.com" "Software Engineer" none "fpOne" "id1" 0

/-- Status poll of the C2 scenario at 240 seconds. -/
def c2_status : ServerState × Except ApiError StatusResponse :=
  get_interview_status c2_run1.1 "id1" (some "fpOne") 240

/-- Zero-progress restart of the C2 scenario at 300 seconds. -/
def c2_run2 : ServerState × Except ApiError StartResponse :=
  start_interview ex_choose [ex_question, ex_question2] true c2_run1.1
    "Ann" "a@x.com" "Software Engineer" none "fpOne" "id2" 300

/-- Expired answer submission of the C4 scenario: 1800 seconds elapsed on
a 30-minute budget. -/
def c4_answer : ServerState × Except ApiError AnswerResponse :=
  process_answer ex_eval ex_choose ex_state_active "S" "an index speeds up lookups"
    (some "fpOne") 1800

/-- Status poll of the C4 scenario after the expired submission. -/
def c4_status : ServerState × Except ApiError StatusResponse :=
  get_interview_status c4_answer.1 "S" (some "fpOne") 1800

/-- Start of the C9 scenario: the durable write of the new identity
mapping fails (`writeOk = false`). -/
def c9_run : ServerState × Except ApiError StartResponse :=
  start_interview ex_choose [ex_question, ex_question2] false ex_state_empty
    "Ann" "a@x.com" "Software Engineer" none "fpOne" "idX" 0

/-- The state after the first C7 start, for the idempotence witness. -/
def c7_state1 : ServerState := c2_run1.1

/-- The concrete response of the first C7 start. -/
def c7_resp1 : StartResponse :=
  { session_id := "id1"
    status := "started"
    first_question := some ex_question.question
    remaining_time_minutes := 30
    interview_timer_started := some 0 }

/-- A zero-progress active record for the C8 witness: same link, same
fingerprint, but `current_question_num = 1` (nothing answered yet). -/
def c8_stale_record : SessionRecord :=
  { ex_timer_record with
      session_id := "id1"
      current_question_num := 1
      results := []
      is_l1_interview := true
      l1_session_id := some "L1X"
      current_question := some ex_question }

/-- Server state for the C8 witness: the stale zero-progress record under
the persistent id `id1`, its artifact still present. -/
def c8_state : ServerState :=
  { ex_state_l1 with
      active_sessions := [("id1", c8_stale_record)]
      persistent_mem := [("L1_L1X_a@x.com", "id1")]
      persistent_durable := [("L1_L1X_a@x.com", "id1")] }

/-- The expected state after a resumed start against `ex_state_active`:
only the persistent map gains the (unused) fresh mapping. -/
def c2_resume_state : ServerState :=
  { ex_state_active with
      persistent_mem := [("REG_a@x.com_fpOne", "idZ")]
      persistent_durable := [("REG_a@x.com_fpOne", "idZ")] }

def c2_resume_resp : StartResponse :=
  { session_id := "S"
    status := "resumed"
    current_question := some ex_question2.question
    current_question_num := some 2
    remaining_time_minutes := 20
    interview_timer_started := some 0 }

/-- The record mutation performed by the expiry guard of `process_answer`
and `get_interview_status` (status completed, end reason `time_expired`). -/
def expired_record (s : SessionRecord) (now : ℚ) : SessionRecord :=
  { s with status := "completed", end_time := some now,
           end_reason := some "time_expired" }

/-- The C8 state with the `L1X` link lock already claimed by `fpOne`. -/
def c1_locked_state : ServerState :=
  { c8_state with l1_link_locks := [("L1X", "fpOne")] }

/-- The fresh record, state and response produced by the C8 witness run. -/
def c8_fresh_record : SessionRecord :=
  { fresh_session_record "id1" "Ann" "a@x.com" "fpOne" "Data Engineer"
      [ex_question, ex_question2] (some "L1X") 120 with
    current_question := some ex_question
    current_question_num := 1 }

def c8_state2 : ServerState :=
  { c8_state with active_sessions := [("id1", c8_fresh_record)] }

def c8_resp : StartResponse :=
  { session_id := "id1"
    status := "started"
    first_question := some ex_question.question
    remaining_time_minutes := 30
    interview_timer_started := some 120 }

/-- Lookup after in-place update: the updated key reads the new value,
every other key is untouched. -/
theorem mapGet_mapSet {α : Type} (m : List (String × α)) (k k1 : String) (v : α) :
    mapGet (mapSet m k v) k1 = if k = k1 then some v else mapGet m k1 := by
  induction m with
  | nil => by_cases h : k = k1 <;> simp [mapGet, mapSet, h]
  | cons p rest ih =>
      by_cases hp : p.1 = k
      · by_cases h : k = k1
        · simp [mapSet, hp, mapGet, h]
        · have hp1 : ¬ p.1 = k1 := by rw [hp]; exact h
          simp [mapSet, hp, mapGet, h, hp1]
      · by_cases hp1 : p.1 = k1
        · have h : ¬ k = k1 := fun hc => hp (hc ▸ hp1)
          simp only [mapSet, if_neg hp]
          simp only [mapGet, if_pos hp1, if_neg h]
        · simp [mapSet, hp, mapGet, hp1, ih]

/-- Updating the same key twice keeps only the second write. -/
theorem mapSet_mapSet {α : Type} (m : List (String × α)) (k : String) (v w : α) :
    mapSet (mapSet m k v) k w = mapSet m k w := by
  induction m with
  | nil => simp [mapSet]
  | cons p rest ih =>
      by_cases hp : p.1 = k
      · simp [mapSet, hp]
      · simp [mapSet, hp, ih]

/-- A deleted key reads as absent. -/
theorem mapGet_mapDel_self {α : Type} (m : List (String × α)) (k : String) :
    mapGet (mapDel m k) k = none := by
  induction m with
  | nil => rfl
  | cons p rest ih => by_cases hp : p.1 = k <;> simp [mapDel, mapGet, hp, ih]

/-- Deletion does not touch other keys. -/
theorem mapGet_mapDel_ne {α : Type} (m : List (String × α)) (k k1 : String) (h : k1 ≠ k) :
    mapGet (mapDel m k) k1 = mapGet m k1 := by
  induction m with
  | nil => rfl
  | cons p rest ih =>
      have hk : ¬ k = k1 := fun hc => h hc.symm
      by_cases hp : p.1 = k
      · have hp1 : ¬ p.1 = k1 := by rw [hp]; exact fun hc => h hc.symm
        simp [mapDel, mapGet, hp, hp1, ih, hk]
      · by_cases hp1 : p.1 = k1 <;> simp [mapDel, mapGet, hp, hp1, ih, hk, h]

/-- Deleting a key twice is the same as deleting it once. -/
theorem mapDel_mapDel {α : Type} (m : List (String × α)) (k : String) :
    mapDel (mapDel m k) k = mapDel m k := by
  induction m with
  | nil => rfl
  | cons p rest ih => by_cases hp : p.1 = k <;> simp [mapDel, hp, ih]

/-- Removing a file name twice is the same as removing it once. -/
theorem remove_name_remove_name (l : List String) (k : String) :
    remove_name (remove_name l k) k = remove_name l k := by
  induction l with
  | nil => rfl
  | cons n rest ih => by_cases hn : n = k <;> simp [remove_name, hn, ih]

/-- Membership in an updated association list: an entry is an old entry
or the new pair. -/
theorem mem_mapSet {α : Type} {m : List (String × α)} {k : String} {v : α} {e : String × α}
    (h : e ∈ mapSet m k v) : e ∈ m ∨ e = (k, v) := by
  induction m with
  | nil =>
      simp [mapSet] at h
      exact Or.inr h
  | cons p rest ih =>
      by_cases hp : p.1 = k
      · rw [mapSet] at h
        rw [if_pos hp] at h
        rcases List.mem_cons.mp h with h1 | h1
        · exact Or.inr h1
        · exact Or.inl (List.mem_cons_of_mem p h1)
      · rw [mapSet] at h
        rw [if_neg hp] at h
        rcases List.mem_cons.mp h with h1 | h1
        · exact Or.inl (by simp [h1])
        · rcases ih h1 with h2 | h2
          · exact Or.inl (List.mem_cons_of_mem p h2)
          · exact Or.inr h2

/-- Half-even rounding never goes below the floor. -/
theorem floor_le_round_half_even (q : ℚ) : ⌊q⌋ ≤ round_half_even q := by
  unfold round_half_even
  split_ifs <;> omega

/-- Half-even rounding never exceeds the floor plus one. -/
theorem round_half_even_le_floor_add_one (q : ℚ) : round_half_even q ≤ ⌊q⌋ + 1 := by
  unfold round_half_even
  split_ifs <;> omega

/-- Half-even rounding preserves non-negativity. -/
theorem round_half_even_nonneg {q : ℚ} (h : 0 ≤ q) : 0 ≤ round_half_even q := by
  have h0 : (0 : ℤ) ≤ ⌊q⌋ := Int.floor_nonneg.mpr h
  unfold round_half_even
  split_ifs <;> omega

/-- Half-even rounding is monotone. -/
theorem round_half_even_mono {a b : ℚ} (hab : a ≤ b) :
    round_half_even a ≤ round_half_even b := by
  rcases lt_or_le ⌊a⌋ ⌊b⌋ with hf | hf
  · calc round_half_even a ≤ ⌊a⌋ + 1 := round_half_even_le_floor_add_one a
      _ ≤ ⌊b⌋ := by omega
      _ ≤ round_half_even b := floor_le_round_half_even b
  · have hf2 : ⌊a⌋ = ⌊b⌋ := le_antisymm (Int.floor_mono hab) hf
    have hr : a - (⌊a⌋ : ℚ) ≤ b - (⌊b⌋ : ℚ) := by
      rw [hf2]
      linarith
    unfold round_half_even
    rw [hf2]
    split_ifs <;> first | omega | (exfalso; linarith)

/-- Decimal rounding preserves non-negativity. -/
theorem python_round_dp_nonneg (dp : ℕ) {q : ℚ} (h : 0 ≤ q) :
    0 ≤ python_round_dp dp q := by
  unfold python_round_dp
  have hp : (0 : ℚ) < (10 : ℚ) ^ dp := by positivity
  apply div_nonneg _ (le_of_lt hp)
  exact_mod_cast round_half_even_nonneg (by positivity)

/-- Decimal rounding is monotone. -/
theorem python_round_dp_mono (dp : ℕ) {a b : ℚ} (h : a ≤ b) :
    python_round_dp dp a ≤ python_round_dp dp b := by
  unfold python_round_dp
  have hp : (0 : ℚ) < (10 : ℚ) ^ dp := by positivity
  have hm := round_half_even_mono (mul_le_mul_of_nonneg_right h (le_of_lt hp))
  have hm2 : ((round_half_even (a * 10 ^ dp) : ℚ)) ≤ ((round_half_even (b * 10 ^ dp) : ℚ)) := by
    exact_mod_cast hm
  exact div_le_div_of_nonneg_right hm2 (le_of_lt hp)

/-- The remaining time is never negative. -/
theorem get_remaining_time_minutes_nonneg (now : ℚ) (s : SessionRecord) :
    0 ≤ get_remaining_time_minutes now s := by
  unfold get_remaining_time_minutes
  cases s.interview_timer_started with
  | none => norm_num [INTERVIEW_TIME_LIMIT_MINUTES]
  | some t => exact python_round_dp_nonneg 2 (le_max_left 0 _)

/-- For a fixed record, the remaining time only shrinks as the clock
advances. -/
theorem get_remaining_time_minutes_antitone (s : SessionRecord) {n1 n2 : ℚ}
    (h : n1 ≤ n2) :
    get_remaining_time_minutes n2 s ≤ get_remaining_time_minutes n1 s := by
  unfold get_remaining_time_minutes
  cases s.interview_timer_started with
  | none => exact le_refl _
  | some t =>
      apply python_round_dp_mono
      apply max_le_max (le_refl 0)
      have he : (n1 - t) / 60 ≤ (n2 - t) / 60 := by
        apply div_le_div_of_nonneg_right (by linarith) (by norm_num)
      linarith

/-- The expiry test is exactly `time_limit ≤ elapsed minutes` when a
timer is set. -/
theorem check_interview_timer_iff (now : ℚ) (s : SessionRecord) (t : ℚ)
    (h : s.interview_timer_started = some t) :
    check_interview_timer now s = true ↔ s.time_limit_minutes ≤ (now - t) / 60 := by
  simp [check_interview_timer, h]

/-- Claim C3 counterexample: with the timer started 20 seconds ago on a
30-minute budget, the source returns the 2-decimal rounded value 29.67,
not the exact `max 0 (limit - elapsed) = 29 + 2/3` the claim states. -/
theorem c3_counterexample :
    get_remaining_time_minutes 20 ex_timer_record ≠
      max 0 (ex_timer_record.time_limit_minutes - (20 - 0) / 60) := by
  have hm : max (0:ℚ) (ex_timer_record.time_limit_minutes - (20 - 0) / 60) =
      ex_timer_record.time_limit_minutes - (20 - 0) / 60 := by
    apply max_eq_right
    norm_num [ex_timer_record]
  rw [hm]
  norm_num [get_remaining_time_minutes, ex_timer_record, python_round_dp,
    round_half_even, INTERVIEW_TIME_LIMIT_MINUTES]

/-- Claim C3 (amended): the remaining time is never negative; with a
timer set, the session is expired exactly when
`timeLimitMinutes ≤ elapsedMinutes`, and the remaining time is
`max 0 (timeLimitMinutes - elapsedMinutes)` rounded to two decimal
places; with no timer set, the remaining time is the full 30-minute
budget and the session is never expired. -/
theorem c3_timer_computation :
    (∀ (now : ℚ) (s : SessionRecord), 0 ≤ get_remaining_time_minutes now s) ∧
    (∀ (now : ℚ) (s : SessionRecord) (t : ℚ), s.interview_timer_started = some t →
       (check_interview_timer now s = true ↔ s.time_limit_minutes ≤ (now - t) / 60)) ∧
    (∀ (now : ℚ) (s : SessionRecord) (t : ℚ), s.interview_timer_started = some t →
       get_remaining_time_minutes now s =
         python_round_dp 2 (max 0 (s.time_limit_minutes - (now - t) / 60))) ∧
    (∀ (now : ℚ) (s : SessionRecord), s.interview_timer_started = none →
       get_remaining_time_minutes now s = INTERVIEW_TIME_LIMIT_MINUTES ∧
       check_interview_timer now s = false) := by
  refine ⟨get_remaining_time_minutes_nonneg, check_interview_timer_iff, ?_, ?_⟩
  · intro now s t h
    simp [get_remaining_time_minutes, h]
  · intro now s h
    simp [get_remaining_time_minutes, check_interview_timer, h]

/-- Claim C3 witness: the amended theorem applied to the concrete record
whose timer started at 0. -/
theorem c3_timer_computation_witness :
    (check_interview_timer 1800 ex_timer_record = true ↔
       ex_timer_record.time_limit_minutes ≤ ((1800 : ℚ) - 0) / 60) ∧
    get_remaining_time_minutes 20 ex_timer_record =
      python_round_dp 2 (max 0 (ex_timer_record.time_limit_minutes - ((20 : ℚ) - 0) / 60)) :=
  ⟨c3_timer_computation.2.1 1800 ex_timer_record 0 rfl,
   c3_timer_computation.2.2.1 20 ex_timer_record 0 rfl⟩

/-- The guarded L1 cleanup never touches the session store. -/
theorem release_l1_artifacts_sessions (st : ServerState) (s : SessionRecord) :
    (release_l1_artifacts st s).active_sessions = st.active_sessions := by
  unfold release_l1_artifacts
  split
  · split <;> rfl
  · rfl

/-- Frame property of `process_answer`: whatever branch runs, the
`interview_timer_started` of every stored record is unchanged (the
operation never writes a timer into an existing record). -/
theorem process_answer_timer_frame
    (ea : String → String → String → ℤ × String)
    (ch : List Question → String → Option Question)
    (st : ServerState) (sid ans : String) (fp : Option String) (now : ℚ) (k : String) :
    ((mapGet (process_answer ea ch st sid ans fp now).1.active_sessions k).map
        (fun r => r.interview_timer_started))
      = (mapGet st.active_sessions k).map (fun r => r.interview_timer_started) := by
  unfold process_answer
  cases hs : mapGet st.active_sessions sid with
  | none => rfl
  | some s =>
      dsimp only
      split_ifs with hfp ht hcomp
      · rfl
      · rw [mapGet_mapSet]
        by_cases hk : sid = k
        · subst hk
          rw [if_pos rfl, hs]
          rfl
        · rw [if_neg hk]
      · rfl
      · cases hq : s.current_question with
        | none => rfl
        | some cq =>
            dsimp only
            split_ifs with hdone
            · rw [release_l1_artifacts_sessions]
              dsimp only
              rw [mapGet_mapSet]
              by_cases hk : sid = k
              · subst hk
                rw [if_pos rfl, hs]
                rfl
              · rw [if_neg hk]
            · split
              · dsimp only
                rw [mapGet_mapSet]
                by_cases hk : sid = k
                · subst hk
                  rw [if_pos rfl, hs]
                  rfl
                · rw [if_neg hk]
              · rw [release_l1_artifacts_sessions]
                dsimp only
                rw [mapGet_mapSet]
                by_cases hk : sid = k
                · subst hk
                  rw [if_pos rfl, hs]
                  rfl
                · rw [if_neg hk]

/-- Frame property of `get_interview_status`: no branch writes an
`interview_timer_started` into a stored record. -/
theorem get_interview_status_timer_frame (st : ServerState) (sid : String)
    (fp : Option String) (now : ℚ) (k : String) :
    ((mapGet (get_interview_status st sid fp now).1.active_sessions k).map
        (fun r => r.interview_timer_started))
      = (mapGet st.active_sessions k).map (fun r => r.interview_timer_started) := by
  unfold get_interview_status
  cases hs : mapGet st.active_sessions sid with
  | none => rfl
  | some s =>
      dsimp only
      split_ifs with hfp ht hres
      · rfl
      · rw [mapGet_mapSet]
        by_cases hk : sid = k
        · subst hk
          rw [if_pos rfl, hs]
          rfl
        · rw [if_neg hk]
      · rfl
      · rfl

/-- Frame property of `end_interview`: a record still stored after the
call keeps its original `interview_timer_started` (the call only removes
the ended record). -/
theorem end_interview_timer_frame (st : ServerState) (sid : String)
    (fp : Option String) (now : ℚ) (k : String) (r1 : SessionRecord)
    (h : mapGet (end_interview st sid fp now).1.active_sessions k = some r1) :
    ∃ r0, mapGet st.active_sessions k = some r0 ∧
      r1.interview_timer_started = r0.interview_timer_started := by
  unfold end_interview at h
  cases hs : mapGet st.active_sessions sid with
  | none =>
      rw [hs] at h
      exact ⟨r1, h, rfl⟩
  | some s =>
      rw [hs] at h
      dsimp only at h
      split_ifs at h with hfp
      · exact ⟨r1, h, rfl⟩
      · rw [release_l1_artifacts_sessions] at h
        dsimp only at h
        by_cases hk : k = sid
        · subst hk
          rw [mapGet_mapDel_self] at h
          cases h
        · rw [mapGet_mapDel_ne _ _ _ hk, mapGet_mapSet] at h
          rw [if_neg (fun hc => hk hc.symm)] at h
          exact ⟨r1, h, rfl⟩

/-- `get_or_create_persistent_session_id` touches only the persistent
maps: store, locks, artifacts and lock files are unchanged. -/
theorem get_or_create_frame (w : Bool) (st : ServerState) (u f : String) :
    ((get_or_create_persistent_session_id w st u f).1.active_sessions = st.active_sessions) ∧
    ((get_or_create_persistent_session_id w st u f).1.l1_link_locks = st.l1_link_locks) ∧
    ((get_or_create_persistent_session_id w st u f).1.l1_files = st.l1_files) ∧
    ((get_or_create_persistent_session_id w st u f).1.security_files = st.security_files) := by
  unfold get_or_create_persistent_session_id save_persistent_sessions
  split
  · exact ⟨rfl, rfl, rfl, rfl⟩
  · split <;> exact ⟨rfl, rfl, rfl, rfl⟩

/-- After resolution, the in-memory persistent map holds the returned
session id under the resolved identifier. -/
theorem get_or_create_mem (w : Bool) (st : ServerState) (u f : String) :
    mapGet (get_or_create_persistent_session_id w st u f).1.persistent_mem u
      = some (get_or_create_persistent_session_id w st u f).2 := by
  unfold get_or_create_persistent_session_id save_persistent_sessions
  cases h : mapGet st.persistent_mem u with
  | some sid => simpa using h
  | none =>
      dsimp only
      split <;> simp [mapGet_mapSet]

/-- A known identifier resolves to its mapped id without any state
change. -/
theorem get_or_create_found (w : Bool) (st : ServerState) (u f p : String)
    (h : mapGet st.persistent_mem u = some p) :
    get_or_create_persistent_session_id w st u f = (st, p) := by
  unfold get_or_create_persistent_session_id
  rw [h]

/-- A `resumed` start response leaves the session store untouched and
reports the remaining time computed from the matched record's original
timer start. -/
theorem start_interview_resumed_spec
    (choose : List Question → String → Option Question) (gp : List Question)
    (w : Bool) (st : ServerState) (name email pos : String) (l1 : Option String)
    (fp fid : String) (now : ℚ) (st2 : ServerState) (resp : StartResponse)
    (h : start_interview choose gp w st name email pos l1 fp fid now = (st2, .ok resp))
    (hres : resp.status = "resumed") :
    st2.active_sessions = st.active_sessions ∧
    ∃ e, st.active_sessions.find? (resume_match l1 email fp) = some e ∧
      resp.remaining_time_minutes = get_remaining_time_minutes now e.2 ∧
      resp.interview_timer_started = e.2.interview_timer_started := by
  simp only [start_interview] at h
  obtain ⟨ha, hl, hf, hsec⟩ :=
    get_or_create_frame w st (create_user_identifier email fp l1) fid
  cases hfind : (get_or_create_persistent_session_id w st
      (create_user_identifier email fp l1) fid).1.active_sessions.find?
        (resume_match l1 email fp) with
  | some e =>
      rw [hfind] at h
      dsimp only at h
      have hst2 : st2 = (get_or_create_persistent_session_id w st
          (create_user_identifier email fp l1) fid).1 := (congrArg Prod.fst h).symm
      have hresp : Except.ok (ε := ApiError) (resume_response e now) = Except.ok resp :=
        congrArg Prod.snd h
      have hresp2 : resume_response e now = resp := by
        injection hresp
      refine ⟨by rw [hst2, ha], e, by rw [← ha]; exact hfind, ?_, ?_⟩
      · rw [← hresp2]
        rfl
      · rw [← hresp2]
        rfl
  | none =>
      rw [hfind] at h
      simp only [start_fresh] at h
      split_ifs at h with hlc
      · exact absurd (congrArg Prod.snd h) (by simp)
      · cases hload : load_question_pool gp (get_or_create_persistent_session_id w st
            (create_user_identifier email fp l1) fid).1 pos l1 with
        | error e =>
            rw [hload] at h
            exact absurd (congrArg Prod.snd h) (by simp)
        | ok pr =>
            rw [hload] at h
            dsimp only at h
            have hresp : Except.ok (ε := ApiError) _ = Except.ok resp := congrArg Prod.snd h
            have hresp2 := Except.ok.inj hresp
            have : resp.status = "started" := by rw [← hresp2]
            rw [hres] at this
            exact absurd this (by decide)

/-- Claim C2 counterexample: a regular session started at 0 seconds
polls status at 240 seconds (remaining 26), then issues a zero-progress
`startSession` at 300 seconds, which is served fresh with remaining 30 —
the sequence of returned `remaining_time_minutes` increases, and the
record stored under the same persistent id now carries a new
`interview_timer_started` of 300. -/
theorem c2_counterexample :
    status_result_remaining c2_status.2 = some 26 ∧
    start_result_remaining c2_run2.2 = some 30 ∧
    (mapGet c2_run1.1.active_sessions "id1").map (fun r => r.interview_timer_started)
      = some (some 0) ∧
    (mapGet c2_run2.1.active_sessions "id1").map (fun r => r.interview_timer_started)
      = some (some 300) := by
  refine ⟨?_, ?_, ?_, ?_⟩ <;>
    norm_num [c2_status, c2_run1, c2_run2, start_interview,
      get_or_create_persistent_session_id, save_persistent_sessions,
      create_user_identifier, mapGet, mapSet, resume_match, start_fresh,
      l1_lock_conflict, load_question_pool, fresh_session_record, ex_state_empty,
      ex_choose, ex_question, ex_question2, status_result_remaining,
      start_result_remaining, resume_response, NUM_QUESTIONS,
      INTERVIEW_TIME_LIMIT_MINUTES, List.find?, get_interview_status,
      fingerprint_mismatch, check_interview_timer, get_remaining_time_minutes,
      python_round_dp, round_half_even, average_score]

/-- Claim C2 (amended): for a fixed record, the remaining time is
non-increasing in the clock; `process_answer` and `get_interview_status`
never write an `interview_timer_started` into a stored record, and
`end_interview` only removes records; a `resumed` `startSession` leaves
the store untouched and computes the remaining time from the original
timer start.  (A zero-progress `startSession` however replaces the record
with a fresh timer — see the counterexample.) -/
theorem c2_timer_monotonicity :
    (∀ (s : SessionRecord) (n1 n2 : ℚ), n1 ≤ n2 →
       get_remaining_time_minutes n2 s ≤ get_remaining_time_minutes n1 s) ∧
    (∀ ea ch (st : ServerState) (sid ans : String) (fp : Option String) (now : ℚ)
        (k : String),
       ((mapGet (process_answer ea ch st sid ans fp now).1.active_sessions k).map
           (fun r => r.interview_timer_started))
         = (mapGet st.active_sessions k).map (fun r => r.interview_timer_started)) ∧
    (∀ (st : ServerState) (sid : String) (fp : Option String) (now : ℚ) (k : String),
       ((mapGet (get_interview_status st sid fp now).1.active_sessions k).map
           (fun r => r.interview_timer_started))
         = (mapGet st.active_sessions k).map (fun r => r.interview_timer_started)) ∧
    (∀ (st : ServerState) (sid : String) (fp : Option String) (now : ℚ) (k : String)
        (r1 : SessionRecord),
       mapGet (end_interview st sid fp now).1.active_sessions k = some r1 →
       ∃ r0, mapGet st.active_sessions k = some r0 ∧
         r1.interview_timer_started = r0.interview_timer_started) ∧
    (∀ choose gp w (st : ServerState) (name email pos : String) (l1 : Option String)
        (fp fid : String) (now : ℚ) (st2 : ServerState) (resp : StartResponse),
       start_interview choose gp w st name email pos l1 fp fid now = (st2, .ok resp) →
       resp.status = "resumed" →
       st2.active_sessions = st.active_sessions ∧
       ∃ e, st.active_sessions.find? (resume_match l1 email fp) = some e ∧
         resp.remaining_time_minutes = get_remaining_time_minutes now e.2 ∧
         resp.interview_timer_started = e.2.interview_timer_started) :=
  ⟨fun s _ _ h => get_remaining_time_minutes_antitone s h,
   process_answer_timer_frame, get_interview_status_timer_frame,
   end_interview_timer_frame, start_interview_resumed_spec⟩

/-- Claim C2 witness: the amended theorem applied at 120 and 240
seconds on the concrete record, and to a concrete resumed start at 600
seconds. -/
theorem c2_timer_monotonicity_witness :
    (get_remaining_time_minutes 240 ex_timer_record ≤
       get_remaining_time_minutes 120 ex_timer_record) ∧
    (c2_resume_state.active_sessions = ex_state_active.active_sessions ∧
     ∃ e, ex_state_active.active_sessions.find?
         (resume_match none "a@x.com" "fpOne") = some e ∧
       c2_resume_resp.remaining_time_minutes = get_remaining_time_minutes 600 e.2 ∧
       c2_resume_resp.interview_timer_started = e.2.interview_timer_started) := by
  constructor
  · exact c2_timer_monotonicity.1 ex_timer_record 120 240 (by norm_num)
  · exact c2_timer_monotonicity.2.2.2.2 ex_choose [ex_question] true ex_state_active
      "Ann" "a@x.com" "Software Engineer" none "fpOne" "idZ" 600
      c2_resume_state c2_resume_resp
      (by norm_num [start_interview, get_or_create_persistent_session_id,
            save_persistent_sessions, create_user_identifier, mapGet, mapSet,
            resume_match, resume_response, ex_state_active, ex_state_empty,
            ex_timer_record, ex_question, ex_question2, List.find?,
            get_remaining_time_minutes, python_round_dp, round_half_even,
            INTERVIEW_TIME_LIMIT_MINUTES, c2_resume_state, c2_resume_resp,
            show "REG_" ++ "a@x.com" ++ "_" ++ "fpOne" = "REG_a@x.com_fpOne" from rfl])
      rfl

/-- The expiry branch of `process_answer`: an expired timer marks the
record completed and raises `SessionExpired` before any answer
processing. -/
theorem process_answer_expired_eq
    (ea : String → String → String → ℤ × String)
    (ch : List Question → String → Option Question)
    (st : ServerState) (sid ans : String) (fp : Option String) (now : ℚ)
    (s : SessionRecord)
    (hs : mapGet st.active_sessions sid = some s)
    (hfp : fingerprint_mismatch fp s = false)
    (ht : check_interview_timer now s = true) :
    process_answer ea ch st sid ans fp now =
      ({ st with active_sessions := mapSet st.active_sessions sid (expired_record s now) },
       .error .sessionExpired) := by
  unfold process_answer expired_record
  rw [hs]
  simp [hfp, ht]

/-- The expiry branch of `get_interview_status`: an expired timer marks
the record completed and raises `SessionExpired`. -/
theorem get_interview_status_expired_eq
    (st : ServerState) (sid : String) (fp : Option String) (now : ℚ)
    (s : SessionRecord)
    (hs : mapGet st.active_sessions sid = some s)
    (hfp : fingerprint_mismatch fp s = false)
    (ht : check_interview_timer now s = true) :
    get_interview_status st sid fp now =
      ({ st with active_sessions := mapSet st.active_sessions sid (expired_record s now) },
       .error .sessionExpired) := by
  unfold get_interview_status expired_record
  rw [hs]
  simp [hfp, ht]

/-- Claim C4 (amended): a session's status only ever takes the values
`active` and `completed`; on timer exhaustion the record transitions
`active → completed` with `end_reason = time_expired` and the partial
results list preserved, and a subsequent `getStatus` fails with
`SessionExpired` (HTTP 410) — it does not report a distinct `expired`
status. -/
theorem c4_expiry_transition
    (ea : String → String → String → ℤ × String)
    (ch : List Question → String → Option Question)
    (st : ServerState) (sid ans : String) (fp : Option String) (now : ℚ)
    (s : SessionRecord)
    (hs : mapGet st.active_sessions sid = some s)
    (hfp : fingerprint_mismatch fp s = false)
    (ht : check_interview_timer now s = true) :
    (process_answer ea ch st sid ans fp now).2 = .error .sessionExpired ∧
    (∃ s1, mapGet (process_answer ea ch st sid ans fp now).1.active_sessions sid
        = some s1 ∧
      s1.status = "completed" ∧ s1.end_reason = some "time_expired" ∧
      s1.results = s.results) ∧
    (get_interview_status st sid fp now).2 = .error .sessionExpired ∧
    (∃ s1, mapGet (get_interview_status st sid fp now).1.active_sessions sid
        = some s1 ∧
      s1.status = "completed" ∧ s1.results = s.results) ∧
    ApiError.sessionExpired.httpStatus = 410 := by
  rw [process_answer_expired_eq ea ch st sid ans fp now s hs hfp ht,
      get_interview_status_expired_eq st sid fp now s hs hfp ht]
  refine ⟨rfl, ⟨expired_record s now, ?_, rfl, rfl, rfl⟩, rfl,
    ⟨expired_record s now, ?_, rfl, rfl⟩, rfl⟩ <;>
    simp [mapGet_mapSet]

/-- Claim C5: a `submitAnswer` arriving after the time budget is
exhausted fails with `SessionExpired` (HTTP 410); the record is
transitioned out of `active` before any answer processing and no result
is appended by the failed call. -/
theorem c5_expired_answer_rejected
    (ea : String → String → String → ℤ × String)
    (ch : List Question → String → Option Question)
    (st : ServerState) (sid ans : String) (fp : Option String) (now : ℚ)
    (s : SessionRecord)
    (hs : mapGet st.active_sessions sid = some s)
    (hfp : fingerprint_mismatch fp s = false)
    (ht : check_interview_timer now s = true) :
    (process_answer ea ch st sid ans fp now).2 = .error .sessionExpired ∧
    ApiError.sessionExpired.httpStatus = 410 ∧
    ∃ s1, mapGet (process_answer ea ch st sid ans fp now).1.active_sessions sid
        = some s1 ∧
      s1.status ≠ "active" ∧ s1.results = s.results := by
  rw [process_answer_expired_eq ea ch st sid ans fp now s hs hfp ht]
  refine ⟨rfl, rfl, ⟨expired_record s now, ?_, by simp [expired_record], rfl⟩⟩
  simp [mapGet_mapSet]

/-- Claim C4 counterexample: at 1800 seconds on a 30-minute budget the
answer call raises `SessionExpired` and the stored status becomes
`completed`, never `expired`, and the subsequent `getStatus` raises
`SessionExpired` (410) instead of reporting `status = expired`; the
partial results are preserved. -/
theorem c4_counterexample :
    c4_answer.2 = Except.error ApiError.sessionExpired ∧
    (mapGet c4_answer.1.active_sessions "S").map (fun r => r.status) = some "completed" ∧
    (mapGet c4_answer.1.active_sessions "S").map (fun r => r.status) ≠ some "expired" ∧
    c4_status.2 = Except.error ApiError.sessionExpired ∧
    (mapGet c4_answer.1.active_sessions "S").map (fun r => r.results) = some [ex_result] := by
  refine ⟨?_, ?_, ?_, ?_, ?_⟩ <;>
    norm_num [c4_answer, c4_status, process_answer, get_interview_status, ex_state_active,
      ex_timer_record, ex_state_empty, mapGet, mapSet, fingerprint_mismatch,
      check_interview_timer, get_remaining_time_minutes, python_round_dp, round_half_even,
      average_score, ex_eval, ex_choose, INTERVIEW_TIME_LIMIT_MINUTES]
  decide

/-- Claim C4 witness: the amended theorem applied to the concrete
expired session at 1800 seconds. -/
theorem c4_expiry_transition_witness :
    (process_answer ex_eval ex_choose ex_state_active "S" "late answer"
        (some "fpOne") 1800).2 = .error .sessionExpired ∧
    (∃ s1, mapGet (process_answer ex_eval ex_choose ex_state_active "S" "late answer"
        (some "fpOne") 1800).1.active_sessions "S" = some s1 ∧
      s1.status = "completed" ∧ s1.end_reason = some "time_expired" ∧
      s1.results = ex_timer_record.results) ∧
    (get_interview_status ex_state_active "S" (some "fpOne") 1800).2
      = .error .sessionExpired ∧
    (∃ s1, mapGet (get_interview_status ex_state_active "S"
        (some "fpOne") 1800).1.active_sessions "S" = some s1 ∧
      s1.status = "completed" ∧ s1.results = ex_timer_record.results) ∧
    ApiError.sessionExpired.httpStatus = 410 :=
  c4_expiry_transition ex_eval ex_choose ex_state_active "S" "late answer"
    (some "fpOne") 1800 ex_timer_record rfl rfl
    (by norm_num [check_interview_timer, ex_timer_record])

/-- Claim C5 witness: the theorem applied to the concrete expired
session at 3600 seconds. -/
theorem c5_expired_answer_rejected_witness :
    (process_answer ex_eval ex_choose ex_state_active "S" "too late"
        (some "fpOne") 3600).2 = .error .sessionExpired ∧
    ApiError.sessionExpired.httpStatus = 410 ∧
    ∃ s1, mapGet (process_answer ex_eval ex_choose ex_state_active "S" "too late"
        (some "fpOne") 3600).1.active_sessions "S" = some s1 ∧
      s1.status ≠ "active" ∧ s1.results = ex_timer_record.results :=
  c5_expired_answer_rejected ex_eval ex_choose ex_state_active "S" "too late"
    (some "fpOne") 3600 ex_timer_record rfl rfl
    (by norm_num [check_interview_timer, ex_timer_record])

/-- A successful resumption test requires progress:
`current_question_num > 1`. -/
theorem resume_match_progress (l1 : Option String) (email fp : String)
    (e : String × SessionRecord) (h : resume_match l1 email fp e = true) :
    1 < e.2.current_question_num := by
  cases l1 with
  | none =>
      simp only [resume_match, Bool.and_eq_true, decide_eq_true_eq] at h
      exact h.1.2
  | some l1v =>
      simp only [resume_match, Bool.and_eq_true, decide_eq_true_eq] at h
      exact h.2

/-- Claim C1 (amended): the link-access endpoint and `startSession`
reject with `BrowserMismatch` (HTTP 403) when the link's lock entry is
bound to a different fingerprint (for `startSession`, provided no session
of the requesting fingerprint is resumable), and `submitAnswer` rejects
when the requester's fingerprint differs from the one stored in the
session record.  (The unconditional "second fingerprint always receives
BrowserMismatch" fails when no lock entry exists — see the
counterexample.) -/
theorem c1_browser_mismatch_guards :
    (∀ (st : ServerState) (sid fp g : String) (win : ℚ × ℚ) (now : ℚ),
       mapGet st.l1_link_locks sid = some g → g ≠ fp →
       get_l1_interview_session st sid fp (some true) (some win) now
         = (st, .error .browserMismatch)) ∧
    (∀ choose gp w (st : ServerState) (name email pos l1 fp fid : String) (now : ℚ),
       l1_lock_conflict st (some l1) fp = true →
       (∀ e ∈ st.active_sessions, resume_match (some l1) email fp e = false) →
       (start_interview choose gp w st name email pos (some l1) fp fid now).2
         = .error .browserMismatch) ∧
    (∀ ea ch (st : ServerState) (sid ans f : String) (now : ℚ) (s : SessionRecord),
       mapGet st.active_sessions sid = some s →
       s.browser_fingerprint ≠ f →
       process_answer ea ch st sid ans (some f) now = (st, .error .browserMismatch)) ∧
    ApiError.browserMismatch.httpStatus = 403 := by
  refine ⟨?_, ?_, ?_, rfl⟩
  · intro st sid fp g win now h hg
    simp [get_l1_interview_session, h, hg]
  · intro choose gp w st name email pos l1 fp fid now hconf hno
    obtain ⟨ha, hl, hf, hsec⟩ :=
      get_or_create_frame w st (create_user_identifier email fp (some l1)) fid
    simp only [start_interview]
    have hfind : List.find? (resume_match (some l1) email fp)
        (get_or_create_persistent_session_id w st
          (create_user_identifier email fp (some l1)) fid).1.active_sessions = none := by
      apply List.find?_eq_none.mpr
      intro x hx
      rw [ha] at hx
      simp [hno x hx]
    rw [hfind]
    simp only [start_fresh]
    have hconf1 : l1_lock_conflict (get_or_create_persistent_session_id w st
        (create_user_identifier email fp (some l1)) fid).1 (some l1) fp = true := by
      unfold l1_lock_conflict at hconf ⊢
      rw [hl]
      exact hconf
    rw [if_pos hconf1]
  · intro ea ch st sid ans f now s hs hg
    unfold process_answer
    rw [hs]
    simp [fingerprint_mismatch, hg]

/-- Claim C1 counterexample: when the link has never been fetched
through the link-access endpoint (so no lock entry exists), a second,
different fingerprint issuing `startSession` against the same
`linkedExternalId` is served a fresh session (`started`) instead of
receiving `BrowserMismatch`. -/
theorem c1_counterexample :
    start_result_status c1_run2.2 = some "started" ∧
    c1_run2.2 ≠ Except.error ApiError.browserMismatch := by
  constructor <;>
    norm_num [c1_run2, c1_run1, start_interview, get_or_create_persistent_session_id,
      save_persistent_sessions, create_user_identifier, mapGet, mapSet, resume_match,
      start_fresh, l1_lock_conflict, load_question_pool, fresh_session_record,
      ex_state_l1, ex_state_empty, ex_l1_data, ex_choose, ex_question, ex_question2,
      start_result_status, resume_response, NUM_QUESTIONS, INTERVIEW_TIME_LIMIT_MINUTES,
      List.find?]
  decide

/-- Claim C1 witness: the amended theorem applied to a locked link
accessed by another fingerprint, to a `startSession` against that locked
link, and to a `submitAnswer` from a non-owning fingerprint. -/
theorem c1_browser_mismatch_guards_witness :
    (get_l1_interview_session c1_locked_state "L1X" "fpTwo" (some true)
        (some (0, 100)) 50 = (c1_locked_state, .error .browserMismatch)) ∧
    ((start_interview ex_choose [] true c1_locked_state "Ann" "a@x.com"
        "Software Engineer" (some "L1X") "fpTwo" "idW" 50).2
      = .error .browserMismatch) ∧
    (process_answer ex_eval ex_choose ex_state_active "S" "other browser answer"
        (some "fpTwo") 100 = (ex_state_active, .error .browserMismatch)) :=
  ⟨c1_browser_mismatch_guards.1 c1_locked_state "L1X" "fpTwo" "fpOne" (0, 100) 50
      rfl (by decide),
   c1_browser_mismatch_guards.2.1 ex_choose [] true c1_locked_state "Ann" "a@x.com"
      "Software Engineer" "L1X" "fpTwo" "idW" 50 (by decide) (by decide),
   c1_browser_mismatch_guards.2.2.1 ex_eval ex_choose ex_state_active "S"
      "other browser answer" "fpTwo" 100 ex_timer_record rfl (by decide)⟩

/-- The 24-hour sweep cleanup never touches the session store. -/
theorem release_l1_artifacts_24h_sessions (st : ServerState) (s : SessionRecord) :
    (release_l1_artifacts_24h st s).active_sessions = st.active_sessions := by
  unfold release_l1_artifacts_24h
  split
  · split <;> rfl
  · rfl

/-- Tearing down an absent session id is a no-op. -/
theorem session_teardown_of_absent (st : ServerState) (sid : String)
    (h : mapGet st.active_sessions sid = none) : session_teardown st sid = st := by
  unfold session_teardown
  rw [h]

/-- The 24-hour sweep teardown of an absent session id is a no-op. -/
theorem session_teardown_24h_of_absent (st : ServerState) (sid : String)
    (h : mapGet st.active_sessions sid = none) : session_teardown_24h st sid = st := by
  unfold session_teardown_24h
  rw [h]

/-- After teardown, the session id is gone from the store. -/
theorem session_teardown_absent (st : ServerState) (sid : String) :
    mapGet (session_teardown st sid).active_sessions sid = none := by
  unfold session_teardown
  cases hs : mapGet st.active_sessions sid with
  | none => exact hs
  | some s =>
      rw [release_l1_artifacts_sessions]
      exact mapGet_mapDel_self _ _

/-- After the sweep teardown, the session id is gone from the store. -/
theorem session_teardown_24h_absent (st : ServerState) (sid : String) :
    mapGet (session_teardown_24h st sid).active_sessions sid = none := by
  unfold session_teardown_24h
  cases hs : mapGet st.active_sessions sid with
  | none => exact hs
  | some s =>
      rw [release_l1_artifacts_24h_sessions]
      exact mapGet_mapDel_self _ _

/-- The guarded artifact cleanup is idempotent. -/
theorem release_l1_artifacts_idem (st : ServerState) (s : SessionRecord) :
    release_l1_artifacts (release_l1_artifacts st s) s = release_l1_artifacts st s := by
  unfold release_l1_artifacts
  split
  · split
    · simp [mapDel_mapDel, remove_name_remove_name]
    · rfl
  · rfl

/-- Claim C6: resource teardown is idempotent — running the
`end_interview` teardown or the 24-hour sweep teardown a second time for
the same session id, in either order of triggers, is a no-op (store
removal tolerates an absent entry, lock removal is guarded on presence,
artifact deletion is guarded on existence), and the guarded artifact
cleanup itself is idempotent. -/
theorem c6_teardown_idempotent :
    (∀ (st : ServerState) (sid : String),
       session_teardown (session_teardown st sid) sid = session_teardown st sid) ∧
    (∀ (st : ServerState) (sid : String),
       session_teardown_24h (session_teardown_24h st sid) sid
         = session_teardown_24h st sid) ∧
    (∀ (st : ServerState) (sid : String),
       session_teardown (session_teardown_24h st sid) sid
         = session_teardown_24h st sid) ∧
    (∀ (st : ServerState) (sid : String),
       session_teardown_24h (session_teardown st sid) sid = session_teardown st sid) ∧
    (∀ (st : ServerState) (s : SessionRecord),
       release_l1_artifacts (release_l1_artifacts st s) s = release_l1_artifacts st s) :=
  ⟨fun st sid => session_teardown_of_absent _ _ (session_teardown_absent st sid),
   fun st sid => session_teardown_24h_of_absent _ _ (session_teardown_24h_absent st sid),
   fun st sid => session_teardown_of_absent _ _ (session_teardown_24h_absent st sid),
   fun st sid => session_teardown_24h_of_absent _ _ (session_teardown_absent st sid),
   release_l1_artifacts_idem⟩

/-- Claim C9 counterexample: with the durable write failing
(`writeOk = false`), `startSession` for an unmapped identifier still
returns `started` under the freshly created id while the durable store
remains empty — the failure is not surfaced as
`IdentityMapWriteFailure`. -/
theorem c9_counterexample :
    start_result_status c9_run.2 = some "started" ∧
    c9_run.1.persistent_durable = [] ∧
    mapGet c9_run.1.persistent_mem "REG_a@x.com_fpOne" = some "idX" := by
  refine ⟨?_, ?_, ?_⟩ <;>
    norm_num [c9_run, start_interview, get_or_create_persistent_session_id,
      save_persistent_sessions, create_user_identifier, mapGet, mapSet, resume_match,
      start_fresh, l1_lock_conflict, load_question_pool, fresh_session_record,
      ex_state_empty, ex_choose, ex_question, ex_question2, start_result_status,
      resume_response, NUM_QUESTIONS, INTERVIEW_TIME_LIMIT_MINUTES, List.find?,
      show "REG_" ++ "a@x.com" ++ "_" ++ "fpOne" = "REG_a@x.com_fpOne" from rfl]

/-- Claim C9 (amended): when the durable write of a newly created
identity mapping fails, the error is caught and logged only; resolution
returns the new id normally with the mapping kept in the in-memory map
and the durable copy unchanged, and `startSession` proceeds under the
non-persisted id. -/
theorem c9_write_failure_swallowed (st : ServerState) (uid fid : String)
    (h : mapGet st.persistent_mem uid = none) :
    get_or_create_persistent_session_id false st uid fid
      = ({ st with persistent_mem := mapSet st.persistent_mem uid fid }, fid) := by
  unfold get_or_create_persistent_session_id save_persistent_sessions
  rw [h]
  rfl

/-- Claim C9 witness: the amended theorem applied to the empty state
with a failing write. -/
theorem c9_write_failure_swallowed_witness :
    get_or_create_persistent_session_id false ex_state_empty "REG_a@x.com_fpOne" "idX"
      = ({ ex_state_empty with
            persistent_mem := mapSet ex_state_empty.persistent_mem
              "REG_a@x.com_fpOne" "idX" }, "idX") :=
  c9_write_failure_swallowed ex_state_empty "REG_a@x.com_fpOne" "idX" rfl

/-- The fresh-start path never modifies the link lock registry. -/
theorem start_fresh_locks
    (choose : List Question → String → Option Question) (gp : List Question)
    (st : ServerState) (name email pos : String) (l1 : Option String)
    (fp sid : String) (now : ℚ) :
    (start_fresh choose gp st name email pos l1 fp sid now).1.l1_link_locks
      = st.l1_link_locks := by
  unfold start_fresh
  split_ifs with h
  · rfl
  · cases hl : load_question_pool gp st pos l1 with
    | error e => rfl
    | ok pr => rfl

/-- Claim C10: `start_interview` never creates (or removes) a link-lock
entry — the registry after any call equals the registry before — while
the link-access endpoint, on first access with the artifact present,
creates the lock entry bound to the requesting fingerprint and grants
access. -/
theorem c10_start_never_locks :
    (∀ choose gp w (st : ServerState) (name email pos : String) (l1 : Option String)
        (fp fid : String) (now : ℚ),
       (start_interview choose gp w st name email pos l1 fp fid now).1.l1_link_locks
         = st.l1_link_locks) ∧
    (∀ (st : ServerState) (sid fp : String) (win : ℚ × ℚ) (now : ℚ) (d : L1Data),
       mapGet st.l1_link_locks sid = none →
       mapGet st.l1_files sid = some d →
       (get_l1_interview_session st sid fp (some true) (some win) now).1.l1_link_locks
         = mapSet st.l1_link_locks sid fp ∧
       (get_l1_interview_session st sid fp (some true) (some win) now).2
         = .ok (.granted fp)) := by
  constructor
  · intro choose gp w st name email pos l1 fp fid now
    obtain ⟨ha, hl, hf, hsec⟩ :=
      get_or_create_frame w st (create_user_identifier email fp l1) fid
    simp only [start_interview]
    cases hfind : List.find? (resume_match l1 email fp)
        (get_or_create_persistent_session_id w st
          (create_user_identifier email fp l1) fid).1.active_sessions with
    | some e =>
        simp only [hfind]
        exact hl
    | none =>
        simp only [hfind]
        rw [start_fresh_locks]
        exact hl
  · intro st sid fp win now d h hf
    unfold get_l1_interview_session l1_session_file_check
    simp [h, hf, mapGet_mapSet]

/-- Claim C8: when no stored session passes the resumption test
(matching identity AND matching fingerprint AND
`current_question_num > 1`, i.e. nonzero progress), a successful
`startSession` responds `started` — never `resumed` — and replaces the
record under the returned session id with a fresh one: timer started now,
no progress, no results, status `active`. -/
theorem c8_zero_progress_starts_fresh
    (choose : List Question → String → Option Question) (gp : List Question)
    (w : Bool) (st : ServerState) (name email pos : String) (l1 : Option String)
    (fp fid : String) (now : ℚ) (st2 : ServerState) (resp : StartResponse)
    (hno : ∀ e ∈ st.active_sessions, resume_match l1 email fp e = false)
    (h : start_interview choose gp w st name email pos l1 fp fid now = (st2, .ok resp)) :
    resp.status = "started" ∧
    ∃ rec, mapGet st2.active_sessions resp.session_id = some rec ∧
      rec.interview_timer_started = some now ∧ rec.current_question_num ≤ 1 ∧
      rec.results = [] ∧ rec.status = "active" ∧ rec.created_at = now := by
  obtain ⟨ha, hl, hf, hsec⟩ :=
    get_or_create_frame w st (create_user_identifier email fp l1) fid
  simp only [start_interview] at h
  have hfind : List.find? (resume_match l1 email fp)
      (get_or_create_persistent_session_id w st
        (create_user_identifier email fp l1) fid).1.active_sessions = none := by
    apply List.find?_eq_none.mpr
    intro x hx
    rw [ha] at hx
    simp [hno x hx]
  rw [hfind] at h
  simp only [start_fresh] at h
  split_ifs at h with hlc
  · exact absurd (congrArg Prod.snd h) (by simp)
  · cases hload : load_question_pool gp (get_or_create_persistent_session_id w st
        (create_user_identifier email fp l1) fid).1 pos l1 with
    | error e =>
        rw [hload] at h
        exact absurd (congrArg Prod.snd h) (by simp)
    | ok pr =>
        obtain ⟨pool, posn⟩ := pr
        rw [hload] at h
        dsimp only at h
        cases hch : choose pool "easy" with
        | none =>
            rw [hch] at h
            dsimp only at h
            have hst2 : st2 = _ := (congrArg Prod.fst h).symm
            have hresp : _ = resp := Except.ok.inj (congrArg Prod.snd h)
            refine ⟨by rw [← hresp], ?_⟩
            refine ⟨fresh_session_record (get_or_create_persistent_session_id w st
              (create_user_identifier email fp l1) fid).2 name email fp posn pool l1 now,
              ?_, rfl, ?_, rfl, rfl, rfl⟩
            · rw [hst2, ← hresp]
              dsimp only
              rw [mapGet_mapSet]
              simp
            · simp [fresh_session_record]
        | some q =>
            rw [hch] at h
            dsimp only at h
            have hst2 : st2 = _ := (congrArg Prod.fst h).symm
            have hresp : _ = resp := Except.ok.inj (congrArg Prod.snd h)
            refine ⟨by rw [← hresp], ?_⟩
            refine ⟨{ fresh_session_record (get_or_create_persistent_session_id w st
                (create_user_identifier email fp l1) fid).2 name email fp posn pool l1 now
                with current_question := some q, current_question_num := 1 },
              ?_, rfl, ?_, rfl, rfl, rfl⟩
            · rw [hst2, ← hresp]
              dsimp only
              rw [mapGet_mapSet]
              simp
            · simp

/-- Claim C8 witness: the theorem applied to a state holding a stale
zero-progress record for the same link and fingerprint. -/
theorem c8_zero_progress_starts_fresh_witness :
    c8_resp.status = "started" ∧
    ∃ rec, mapGet c8_state2.active_sessions c8_resp.session_id = some rec ∧
      rec.interview_timer_started = some 120 ∧ rec.current_question_num ≤ 1 ∧
      rec.results = [] ∧ rec.status = "active" ∧ rec.created_at = 120 :=
  c8_zero_progress_starts_fresh ex_choose [] true c8_state "Ann" "a@x.com"
    "Software Engineer" (some "L1X") "fpOne" "id9" 120 c8_state2 c8_resp
    (by decide)
    (by norm_num [start_interview, get_or_create_persistent_session_id,
      save_persistent_sessions, create_user_identifier, mapGet, mapSet, resume_match,
      start_fresh, l1_lock_conflict, load_question_pool, fresh_session_record,
      c8_state, c8_state2, c8_stale_record, c8_fresh_record, c8_resp, ex_state_l1,
      ex_state_empty, ex_l1_data, ex_choose, ex_question, ex_question2, ex_timer_record,
      NUM_QUESTIONS, INTERVIEW_TIME_LIMIT_MINUTES, List.find?,
      show "L1_" ++ "L1X" ++ "_" ++ "a@x.com" = "L1_L1X_a@x.com" from rfl])

/-- The lock-conflict test depends only on the lock registry. -/
theorem l1_lock_conflict_eq_of_locks (st st1 : ServerState) (l1 : Option String)
    (fp : String) (h : st1.l1_link_locks = st.l1_link_locks) :
    l1_lock_conflict st1 l1 fp = l1_lock_conflict st l1 fp := by
  unfold l1_lock_conflict
  cases l1 with
  | none => rfl
  | some l1v => rw [h]

/-- Question-pool loading depends only on the artifact store. -/
theorem load_question_pool_eq_of_files (gp : List Question) (st st1 : ServerState)
    (pos : String) (l1 : Option String) (h : st1.l1_files = st.l1_files) :
    load_question_pool gp st1 pos l1 = load_question_pool gp st pos l1 := by
  unfold load_question_pool
  cases l1 with
  | none => rfl
  | some l1v => rw [h]

/-- Claim C7: `startSession` is idempotent — if a call succeeds, an
immediate second call with identical inputs returns the same session id
and leaves the state exactly as after the first call, so no duplicate
session record is created; in particular identity resolution returns the
already-mapped id. -/
theorem c7_start_session_idempotent
    (choose : List Question → String → Option Question) (gp : List Question)
    (w : Bool) (st : ServerState) (name email pos : String) (l1 : Option String)
    (fp fid1 fid2 : String) (now : ℚ) (st1 : ServerState) (resp1 : StartResponse)
    (h : start_interview choose gp w st name email pos l1 fp fid1 now = (st1, .ok resp1)) :
    ∃ resp2, start_interview choose gp w st1 name email pos l1 fp fid2 now
        = (st1, .ok resp2) ∧ resp2.session_id = resp1.session_id := by
  obtain ⟨ha, hl, hf, hsec⟩ :=
    get_or_create_frame w st (create_user_identifier email fp l1) fid1
  have hmem := get_or_create_mem w st (create_user_identifier email fp l1) fid1
  simp only [start_interview] at h ⊢
  cases hfind : List.find? (resume_match l1 email fp)
      (get_or_create_persistent_session_id w st
        (create_user_identifier email fp l1) fid1).1.active_sessions with
  | some e =>
      rw [hfind] at h
      dsimp only at h
      have hst1 : st1 = (get_or_create_persistent_session_id w st
          (create_user_identifier email fp l1) fid1).1 := (congrArg Prod.fst h).symm
      have hresp1 : resume_response e now = resp1 := Except.ok.inj (congrArg Prod.snd h)
      have hfound : mapGet st1.persistent_mem (create_user_identifier email fp l1)
          = some (get_or_create_persistent_session_id w st
              (create_user_identifier email fp l1) fid1).2 := by
        rw [hst1]
        exact hmem
      rw [get_or_create_found w st1 (create_user_identifier email fp l1) fid2 _ hfound]
      dsimp only
      have hfind2 : List.find? (resume_match l1 email fp) st1.active_sessions = some e := by
        rw [hst1]
        exact hfind
      simp only [hfind2]
      exact ⟨resume_response e now, rfl, by rw [hresp1]⟩
  | none =>
      rw [hfind] at h
      simp only [start_fresh] at h
      split_ifs at h with hlc
      · exact absurd (congrArg Prod.snd h) (by simp)
      · cases hload : load_question_pool gp (get_or_create_persistent_session_id w st
            (create_user_identifier email fp l1) fid1).1 pos l1 with
        | error e2 =>
            rw [hload] at h
            exact absurd (congrArg Prod.snd h) (by simp)
        | ok pr =>
            obtain ⟨pool, posn⟩ := pr
            rw [hload] at h
            dsimp only at h
            cases hch : choose pool "easy" with
            | none =>
                rw [hch] at h
                dsimp only at h
                have hst1 : st1 = _ := (congrArg Prod.fst h).symm
                have hresp1 : _ = resp1 := Except.ok.inj (congrArg Prod.snd h)
                have hact1 : st1.active_sessions = mapSet
                    (get_or_create_persistent_session_id w st
                      (create_user_identifier email fp l1) fid1).1.active_sessions
                    (get_or_create_persistent_session_id w st
                      (create_user_identifier email fp l1) fid1).2
                    (fresh_session_record (get_or_create_persistent_session_id w st
                      (create_user_identifier email fp l1) fid1).2
                      name email fp posn pool l1 now) := by rw [hst1]
                have hmem1 : st1.persistent_mem = (get_or_create_persistent_session_id w st
                    (create_user_identifier email fp l1) fid1).1.persistent_mem := by rw [hst1]
                have hlocks1 : st1.l1_link_locks = (get_or_create_persistent_session_id w st
                    (create_user_identifier email fp l1) fid1).1.l1_link_locks := by rw [hst1]
                have hfiles1 : st1.l1_files = (get_or_create_persistent_session_id w st
                    (create_user_identifier email fp l1) fid1).1.l1_files := by rw [hst1]
                have hfound : mapGet st1.persistent_mem (create_user_identifier email fp l1)
                    = some (get_or_create_persistent_session_id w st
                        (create_user_identifier email fp l1) fid1).2 := by
                  rw [hmem1]
                  exact hmem
                rw [get_or_create_found w st1 (create_user_identifier email fp l1) fid2 _ hfound]
                dsimp only
                have hnone2 : List.find? (resume_match l1 email fp) st1.active_sessions
                    = none := by
                  apply List.find?_eq_none.mpr
                  intro x hx
                  rw [hact1] at hx
                  rcases mem_mapSet hx with hx1 | hx1
                  · exact List.find?_eq_none.mp hfind x hx1
                  · rw [hx1]
                    intro hc
                    have hp := resume_match_progress l1 email fp _ hc
                    simp [fresh_session_record] at hp
                simp only [hnone2]
                simp only [start_fresh]
                rw [l1_lock_conflict_eq_of_locks (get_or_create_persistent_session_id w st
                    (create_user_identifier email fp l1) fid1).1 st1 l1 fp hlocks1]
                rw [if_neg hlc]
                rw [load_question_pool_eq_of_files gp (get_or_create_persistent_session_id w st
                    (create_user_identifier email fp l1) fid1).1 st1 pos l1 hfiles1, hload]
                dsimp only
                rw [hch]
                dsimp only
                have hset : mapSet st1.active_sessions
                    (get_or_create_persistent_session_id w st
                      (create_user_identifier email fp l1) fid1).2
                    (fresh_session_record (get_or_create_persistent_session_id w st
                      (create_user_identifier email fp l1) fid1).2
                      name email fp posn pool l1 now) = st1.active_sessions := by
                  rw [hact1, mapSet_mapSet]
                rw [hset]
                exact ⟨_, rfl, by rw [← hresp1]⟩
            | some q =>
                rw [hch] at h
                dsimp only at h
                have hst1 : st1 = _ := (congrArg Prod.fst h).symm
                have hresp1 : _ = resp1 := Except.ok.inj (congrArg Prod.snd h)
                have hact1 : st1.active_sessions = mapSet
                    (get_or_create_persistent_session_id w st
                      (create_user_identifier email fp l1) fid1).1.active_sessions
                    (get_or_create_persistent_session_id w st
                      (create_user_identifier email fp l1) fid1).2
                    ({ fresh_session_record (get_or_create_persistent_session_id w st
                        (create_user_identifier email fp l1) fid1).2
                        name email fp posn pool l1 now with
                       current_question := some q, current_question_num := 1 }) := by rw [hst1]
                have hmem1 : st1.persistent_mem = (get_or_create_persistent_session_id w st
                    (create_user_identifier email fp l1) fid1).1.persistent_mem := by rw [hst1]
                have hlocks1 : st1.l1_link_locks = (get_or_create_persistent_session_id w st
                    (create_user_identifier email fp l1) fid1).1.l1_link_locks := by rw [hst1]
                have hfiles1 : st1.l1_files = (get_or_create_persistent_session_id w st
                    (create_user_identifier email fp l1) fid1).1.l1_files := by rw [hst1]
                have hfound : mapGet st1.persistent_mem (create_user_identifier email fp l1)
                    = some (get_or_create_persistent_session_id w st
                        (create_user_identifier email fp l1) fid1).2 := by
                  rw [hmem1]
                  exact hmem
                rw [get_or_create_found w st1 (create_user_identifier email fp l1) fid2 _ hfound]
                dsimp only
                have hnone2 : List.find? (resume_match l1 email fp) st1.active_sessions
                    = none := by
                  apply List.find?_eq_none.mpr
                  intro x hx
                  rw [hact1] at hx
                  rcases mem_mapSet hx with hx1 | hx1
                  · exact List.find?_eq_none.mp hfind x hx1
                  · rw [hx1]
                    intro hc
                    have hp := resume_match_progress l1 email fp _ hc
                    simp [fresh_session_record] at hp
                simp only [hnone2]
                simp only [start_fresh]
                rw [l1_lock_conflict_eq_of_locks (get_or_create_persistent_session_id w st
                    (create_user_identifier email fp l1) fid1).1 st1 l1 fp hlocks1]
                rw [if_neg hlc]
                rw [load_question_pool_eq_of_files gp (get_or_create_persistent_session_id w st
                    (create_user_identifier email fp l1) fid1).1 st1 pos l1 hfiles1, hload]
                dsimp only
                rw [hch]
                dsimp only
                have hset : mapSet st1.active_sessions
                    (get_or_create_persistent_session_id w st
                      (create_user_identifier email fp l1) fid1).2
                    ({ fresh_session_record (get_or_create_persistent_session_id w st
                        (create_user_identifier email fp l1) fid1).2
                        name email fp posn pool l1 now with
                       current_question := some q, current_question_num := 1 })
                    = st1.active_sessions := by
                  rw [hact1, mapSet_mapSet]
                rw [hset]
                exact ⟨_, rfl, by rw [← hresp1]⟩

/-- Claim C7 witness: the theorem applied to the concrete first run of
the C2 scenario. -/
theorem c7_start_session_idempotent_witness :
    ∃ resp2, start_interview ex_choose [ex_question, ex_question2] true c7_state1
        "Ann" "a@x.com" "Software Engineer" none "fpOne" "id2" 0
      = (c7_state1, .ok resp2) ∧ resp2.session_id = c7_resp1.session_id :=
  c7_start_session_idempotent ex_choose [ex_question, ex_question2] true ex_state_empty
    "Ann" "a@x.com" "Software Engineer" none "fpOne" "id1" "id2" 0 c7_state1 c7_resp1
    (by norm_num [c7_state1, c7_resp1, c2_run1, start_interview,
      get_or_create_persistent_session_id, save_persistent_sessions,
      create_user_identifier, mapGet, mapSet, resume_match, start_fresh,
      l1_lock_conflict, load_question_pool, fresh_session_record, ex_state_empty,
      ex_choose, ex_question, ex_question2, resume_response, NUM_QUESTIONS,
      INTERVIEW_TIME_LIMIT_MINUTES, List.find?,
      show "REG_" ++ "a@x.com" ++ "_" ++ "fpOne" = "REG_a@x.com_fpOne" from rfl])

/-- Claim C10 witness: the lock-creation conjunct applied to the first
access of the `L1X` link. -/
theorem c10_start_never_locks_witness :
    (get_l1_interview_session ex_state_l1 "L1X" "fpOne" (some true)
        (some (0, 100)) 10).1.l1_link_locks
      = mapSet ex_state_l1.l1_link_locks "L1X" "fpOne" ∧
    (get_l1_interview_session ex_state_l1 "L1X" "fpOne" (some true)
        (some (0, 100)) 10).2 = .ok (.granted "fpOne") :=
  c10_start_never_locks.2 ex_state_l1 "L1X" "fpOne" (0, 100) 10 ex_l1_data rfl rfl
